import Mathlib

/-!
Shallow embedding of the interview orchestration core of `src/graph.py`
(Langgraph-interview-prep-bot).  Python floats are modelled as rationals
(`ℚ`); Python's `round(x, 2)` (nearest, ties handled by binary-float
banker's rounding) is modelled as rounding `x*100` to the nearest integer.
The wall clock (`time.time()`) is passed in explicitly as a `now : ℚ`
parameter to every node that reads it.  The question bank, loaded from a
JSON file at import time, is passed in as an explicit `bank` parameter.
LangGraph nodes return partial state updates that are merged into the
state; each node is modelled as a total function `InterviewState →
InterviewState` applying exactly the fields of its returned update.
-/

/-- The `difficulty` field values of a question / of the state. -/
inductive Difficulty
  | easy
  | medium
  | hard
deriving DecidableEq

/-- The `type` field values of a question. -/
inductive QType
  | technical
  | behavioral
  | mixed
deriving DecidableEq

/-- The `confidence` field values of an answer record. -/
inductive Confidence
  | low
  | medium
  | high
deriving DecidableEq

/-- A conversation message: LangChain `AIMessage` / `HumanMessage`. -/
inductive Msg
  | ai (content : String)
  | human (content : String)
deriving DecidableEq

/-- The `QuestionRecord` of `src/graph.py`.  The Python `type` key is called
`qtype` here because `type` is reserved in Lean. -/
structure QuestionRecord where
  id : String
  text : String
  qtype : QType
  difficulty : Difficulty
  topic : String
deriving DecidableEq

/-- The 4-flag STAR coverage map (the Python dict with keys S, T, A, R). -/
structure StarUsage where
  s : Bool
  t : Bool
  a : Bool
  r : Bool
deriving DecidableEq

/-- The `AnswerRecord` of `src/graph.py`. -/
structure AnswerRecord where
  question_id : String
  user_answer : String
  score : ℚ
  confidence : Confidence
  star_usage : StarUsage
  feedback : String
  time_taken_sec : ℚ
deriving DecidableEq

/-- The final report dict built by `generate_final_report`.  The source
stores `average_score` as the 2-decimal string `f"{x:.2f}"` and
`star_coverage` as `f"{x:.0f}%"`; they are modelled as the corresponding
rounded numeric values. -/
structure Report where
  total_questions : Nat
  average_score : ℚ
  overall_confidence : String
  star_coverage : ℤ
  behavioral_questions : Nat
  technical_questions : Nat
  strengths : List String
  areas_to_improve : List String
  next_steps : List String
deriving DecidableEq

/-- The `InterviewState` of `src/graph.py`, restricted to the fields the
orchestration core reads or writes (the static text fields `jd_summary`,
`company_insights`, `role_analysis`, `soft_skills`, `seniority`,
`competencies` are write-only template text and are omitted). -/
structure InterviewState where
  job_description : String
  user_role : String
  required_skills : List String
  max_questions : Nat
  asked_questions : List QuestionRecord
  answers : List AnswerRecord
  difficulty : Difficulty
  question_counter : Nat
  current_question : Option QuestionRecord
  start_time : ℚ
  awaiting_answer : Bool
  time_budget_min : ℚ
  estimated_time_used_min : ℚ
  final_report : Option Report
  messages : List Msg
  should_follow_up : Bool
  salary_negotiation_phase : Bool
  interview_complete : Bool
  behavioral_questions : Nat
  technical_questions : Nat
deriving DecidableEq

/-- Whether `needle` is a leading segment of `hay` (on character lists). -/
def listStartsWith : List Char → List Char → Bool
  | [], _ => true
  | _ :: _, [] => false
  | c :: cs, d :: ds => c == d && listStartsWith cs ds

/-- Whether `needle` occurs contiguously somewhere in `hay` (on character lists). -/
def listHasInfix (needle : List Char) : List Char → Bool
  | [] => listStartsWith needle []
  | d :: ds => listStartsWith needle (d :: ds) || listHasInfix needle ds

/-- Python substring test `needle in hay`. -/
def strContainsSub (hay needle : String) : Bool :=
  listHasInfix needle.toList hay.toList

/-- Python `len(s.split())`: number of maximal whitespace-free words. -/
def wordCount (s : String) : Nat :=
  ((s.split Char.isWhitespace).filter (fun w => w ≠ "")).length

/-- Python `next((m.content for m in reversed(msgs) if isinstance(m, HumanMessage)), "")`:
the content of the most recent human message, or `""`. -/
def lastHumanMessage (msgs : List Msg) : String :=
  (msgs.reverse.findSome? fun m =>
    match m with
    | .human c => some c
    | .ai _ => none).getD ""

/-- Keyword set of the Situation dimension (line 230 of `src/graph.py`). -/
def sKeywords : List String :=
  ["situation", "context", "background", "scenario", "role", "previous", "company", "corp"]

/-- Keyword set of the Task dimension (line 231). -/
def tKeywords : List String :=
  ["task", "goal", "responsibility", "assigned", "tasked", "objective", "challenge"]

/-- Keyword set of the Action dimension (line 232). -/
def aKeywords : List String :=
  ["action", "implemented", "did", "used", "applied", "developed", "created", "built", "handled"]

/-- Keyword set of the Result dimension (line 233). -/
def rKeywords : List String :=
  ["result", "impact", "outcome", "achieved", "improved", "reduced", "increased", "handled", "traffic"]

/-- The `star` dict: each dimension is true iff some keyword of its set
occurs in the lower-cased answer. -/
def starUsageOf (lower : String) : StarUsage :=
  { s := sKeywords.any fun w => strContainsSub lower w
    t := tKeywords.any fun w => strContainsSub lower w
    a := aKeywords.any fun w => strContainsSub lower w
    r := rKeywords.any fun w => strContainsSub lower w }

/-- Python `sum(star.values())`. -/
def starCount (u : StarUsage) : Nat :=
  (if u.s then 1 else 0) + (if u.t then 1 else 0) +
    (if u.a then 1 else 0) + (if u.r then 1 else 0)

/-- Python `star_score = sum(star.values()) / 4`. -/
def starScoreOf (u : StarUsage) : ℚ :=
  (starCount u : ℚ) / 4

/-- Python `rel = 1.0 if any(skill.lower() in lower ...) else 0.5`. -/
def relevanceOf (skills : List String) (lower : String) : ℚ :=
  if skills.any (fun sk => strContainsSub lower sk.toLower) then 1 else 1 / 2

/-- Python `detail = min(len(ans.split()) / 80, 1.0)`. -/
def detailOf (ans : String) : ℚ :=
  min ((wordCount ans : ℚ) / 80) 1

/-- The unrounded weighted score `(star*0.5 + rel*0.3 + detail*0.2) * 5`. -/
def rawScoreOf (skills : List String) (ans : String) : ℚ :=
  (starScoreOf (starUsageOf ans.toLower) * (1 / 2) +
    relevanceOf skills ans.toLower * (3 / 10) +
    detailOf ans * (1 / 5)) * 5

/-- Python `round(x, 2)` modelled over `ℚ`: round `x*100` to the nearest
integer and divide back. -/
def pyRound2 (x : ℚ) : ℚ :=
  ((round (x * 100) : ℤ) : ℚ) / 100

/-- Python `score = round((star_score*0.5 + rel*0.3 + detail*0.2) * 5, 2)`. -/
def compositeScore (skills : List String) (ans : String) : ℚ :=
  pyRound2 (rawScoreOf skills ans)

/-- The confidence band of lines 240-245: `>= 4.0` high, `>= 2.8` medium,
else low. -/
def confidenceOf (score : ℚ) : Confidence :=
  if 4 ≤ score then .high
  else if 28 / 10 ≤ score then .medium
  else .low

/-- The difficulty adjustment block of lines 293-304 of `evaluate_answer`:
the update dict gets a new difficulty only in the listed cases; otherwise
the merge leaves the state's difficulty unchanged. -/
def adjust_difficulty (current : Difficulty) (score : ℚ) : Difficulty :=
  if 42 / 10 ≤ score then
    match current with
    | .easy => .medium
    | .medium => .hard
    | .hard => .hard
  else if score < 3 then
    match current with
    | .hard => .medium
    | .medium => .easy
    | .easy => .easy
  else current

/-- Lines 306-308: `should_follow_up` is initialised to `False` in the
update and set to `True` iff `2.8 <= score < 4.2`. -/
def followUpFlag (score : ℚ) : Bool :=
  decide (28 / 10 ≤ score) && decide (score < 42 / 10)

/-- Renders the nonnegative centi-value `c` as the fixed two-decimal string
`f"{(c/100):.2f}"` (used only inside feedback text, never branched on). -/
def fmt2 (c : ℤ) : String :=
  let r := (c % 100).toNat
  toString (c / 100) ++ "." ++ (if r < 10 then "0" ++ toString r else toString r)

/-- Python `conf.capitalize()` applied to the three band names. -/
def confCap : Confidence → String
  | .low => "Low"
  | .medium => "Medium"
  | .high => "High"

/-- Python `"Present" if flag else "Missing"`. -/
def presentStr (b : Bool) : String :=
  if b then "Present" else "Missing"

/-- The `star_coverage` feedback line of line 253. -/
def starCoverageStr (u : StarUsage) : String :=
  "S=" ++ presentStr u.s ++ ", T=" ++ presentStr u.t ++ ", A=" ++ presentStr u.a ++
    ", R=" ++ presentStr u.r

/-- Python `[k for k, v in star.items() if not v]` in dict order S, T, A, R. -/
def missingDims (u : StarUsage) : List String :=
  (if u.s then [] else ["S"]) ++ (if u.t then [] else ["T"]) ++
    (if u.a then [] else ["A"]) ++ (if u.r then [] else ["R"])

/-- The `improvement_suggestions` list of lines 255-271. -/
def improvementSuggestions (star : StarUsage) (star_score rel detail score : ℚ) :
    List String :=
  (if star_score < 1 then
    [if 3 ≤ starCount star then "You explained the situation, task, and action well."
     else "Structure your answer using STAR: Missing " ++
       String.intercalate ", " (missingDims star) ++ ".",
     if !star.r then
       "Include measurable impact for the Result, e.g. reduced outage time, improved response time, etc."
     else "Good use of STAR elements."]
  else ["You explained the situation, task, action, and result well."]) ++
  (if rel < 1 then
    ["Connect your answer more directly to the job description skills like Python, REST APIs, etc."]
  else []) ++
  (if detail < 7 / 10 then
    ["Add more details, examples, and metrics to strengthen your response."]
  else []) ++
  [if 4 ≤ score then "Excellent answer! Well-structured, relevant, and detailed."
   else if 28 / 10 ≤ score then "Good effort. Focus on the suggestions above to improve further."
   else "This answer needs significant improvement. Review the STAR method and job description requirements."]

/-- The `feedback_str` of lines 273-275; `scoreC` is the score in hundredths. -/
def feedbackOf (scoreC : ℤ) (conf : Confidence) (star : StarUsage)
    (star_score rel detail score : ℚ) : String :=
  "Feedback:\n\nScore: " ++ fmt2 scoreC ++ " / 5\n\nConfidence Level: " ++ confCap conf ++
    "\n\nSTAR Coverage: " ++ starCoverageStr star ++ "\n\nImprovement Suggestions:\n" ++
    String.join ((improvementSuggestions star star_score rel detail score).map
      fun sug => "• " ++ sug ++ "\n")

/-- Node `evaluate_answer` (lines 218-310).  Guard: when nothing is awaited
or no question is current, the node returns the empty update `{}` and the
merged state is unchanged. -/
def evaluate_answer (now : ℚ) (s : InterviewState) : InterviewState :=
  if !s.awaiting_answer then s
  else
    match s.current_question with
    | none => s
    | some q =>
      let ans := lastHumanMessage s.messages
      let lower := ans.toLower
      let star := starUsageOf lower
      let star_score := starScoreOf star
      let rel := relevanceOf s.required_skills lower
      let detail := detailOf ans
      let scoreC : ℤ := round (rawScoreOf s.required_skills ans * 100)
      let score : ℚ := (scoreC : ℚ) / 100
      let conf := confidenceOf score
      let record : AnswerRecord :=
        { question_id := q.id
          user_answer := ans
          score := score
          confidence := conf
          star_usage := star
          feedback := feedbackOf scoreC conf star star_score rel detail score
          time_taken_sec := now - s.start_time }
      { s with
        answers := s.answers ++ [record]
        awaiting_answer := false
        difficulty := adjust_difficulty s.difficulty score
        should_follow_up := followUpFlag score }

/-- Helper `_select_question` (lines 146-154): filter the bank to unused questions
at the current difficulty or `medium`, widen to any unused question, pick
the first candidate (`candidates[0]`), or return `None`. -/
def select_question (bank : List QuestionRecord) (s : InterviewState) :
    Option QuestionRecord :=
  let usedIds := s.asked_questions.map fun q => q.id
  let candidates := bank.filter fun q =>
    (q.difficulty == s.difficulty || q.difficulty == Difficulty.medium) &&
      !(usedIds.contains q.id)
  match candidates with
  | q :: _ => some q
  | [] =>
    match bank.filter (fun q => !(usedIds.contains q.id)) with
    | q :: _ => some q
    | [] => none

/-- Node `generate_question` (lines 156-182). -/
def generate_question (bank : List QuestionRecord) (now : ℚ) (s : InterviewState) :
    InterviewState :=
  if s.max_questions ≤ s.question_counter then { s with current_question := none }
  else
    match select_question bank s with
    | none => { s with current_question := none }
    | some q =>
      let base := { s with
        current_question := some q
        start_time := now
        question_counter := s.question_counter + 1
        asked_questions := s.asked_questions ++ [q]
        awaiting_answer := true
        messages := s.messages ++ [.ai ("Question: " ++ q.text)] }
      match q.qtype with
      | .behavioral => { base with behavioral_questions := s.behavioral_questions + 1 }
      | .technical => { base with technical_questions := s.technical_questions + 1 }
      | .mixed => base

/-- The follow-up `QuestionRecord` synthesized at lines 193-201. -/
def followUpQuestionOf (parent : QuestionRecord) (prevAnswer : String) : QuestionRecord :=
  { id := "followup_" ++ parent.id
    text := "That\x27s an interesting point about \x27" ++ prevAnswer.take 20 ++
      "...\x27. Can you elaborate on the challenges you faced?"
    qtype := parent.qtype
    difficulty := parent.difficulty
    topic := parent.topic }

/-- Node `generate_follow_up_question` (lines 185-214).  When
`current_question` is `None` the source would raise a `TypeError`; that
case is modelled as the identity and is unreachable through the graph,
since the flag is only ever set while a question is current. -/
def generate_follow_up_question (now : ℚ) (s : InterviewState) : InterviewState :=
  if !s.should_follow_up then s
  else
    match s.current_question with
    | none => s
    | some previous_question =>
      let fq := followUpQuestionOf previous_question (lastHumanMessage s.messages)
      { s with
        current_question := some fq
        start_time := now
        question_counter := s.question_counter + 1
        asked_questions := s.asked_questions ++ [fq]
        awaiting_answer := true
        messages := s.messages ++ [.ai ("Follow-up: " ++ fq.text)]
        should_follow_up := false }

/-- Node `update_progress` (lines 312-323).  `ans[-1]` is the last answer;
the progress message renders the running average with two decimals. -/
def update_progress (s : InterviewState) : InterviewState :=
  match s.answers.getLast? with
  | none => s
  | some last =>
    let avg := (s.answers.map fun a => a.score).sum / (s.answers.length : ℚ)
    { s with
      estimated_time_used_min := s.estimated_time_used_min + last.time_taken_sec / 60
      messages := s.messages ++
        [.ai ("Progress: " ++ fmt2 (round (avg * 100)) ++ "/5 avg score.")] }

/-- The string keys returned by the `controller` routing function. -/
inductive Route
  | start_salary_negotiation
  | save_progress
  | generate_follow_up_question
  | generate_final_report
  | generate_question
deriving DecidableEq

/-- Routing function `controller` (lines 325-343).  The in-place append of a
"Time limit reached." message in the time-budget branch mutates the dict a
conditional edge receives and is not part of the graph's state update; the
routing decision is modelled as a pure function. -/
def controller (s : InterviewState) : Route :=
  if s.interview_complete then
    if !s.salary_negotiation_phase then .start_salary_negotiation else .save_progress
  else if s.should_follow_up then .generate_follow_up_question
  else if s.time_budget_min ≤ s.estimated_time_used_min then .generate_final_report
  else if s.max_questions ≤ s.question_counter then .generate_final_report
  else .generate_question

/-- Node `parse_job_description` (lines 63-89), restricted to the fields
the orchestration core reads later: the fixed required-skills list.  The
summary, soft skills and seniority are template text never read back. -/
def parse_job_description (s : InterviewState) : InterviewState :=
  { s with required_skills :=
      ["Python", "REST APIs", "Microservices", "SQL", "Docker", "Unit Testing", "CI/CD"] }

/-- Node `research_company` (lines 91-109): writes only the
`company_insights` template text, which the core never reads back. -/
def research_company (s : InterviewState) : InterviewState :=
  s

/-- Node `analyze_role` (lines 111-144), restricted to the counters and
flags it initialises.  The Python `state.get("difficulty", "medium")` and
`state.get("time_budget_min", 15)` defaults apply to the raw initial dict;
initial states here carry those defaults explicitly. -/
def analyze_role (s : InterviewState) : InterviewState :=
  { s with
    question_counter := 0
    asked_questions := []
    answers := []
    awaiting_answer := false
    estimated_time_used_min := 0
    behavioral_questions := 0
    technical_questions := 0 }

/-- The fixed empty-history report of lines 348-358 (`"0.00"` and `"0%"`
modelled as the numeric values 0). -/
def emptyReport : Report :=
  { total_questions := 0
    average_score := 0
    overall_confidence := "Low"
    star_coverage := 0
    behavioral_questions := 0
    technical_questions := 0
    strengths := ["No questions answered."]
    areas_to_improve := ["Complete the interview to get feedback."]
    next_steps := ["Try running the interview simulation again."] }

/-- The arithmetic mean of the recorded scores (`sum(...) / total`). -/
def meanScore (answers : List AnswerRecord) : ℚ :=
  (answers.map fun a => a.score).sum / (answers.length : ℚ)

/-- Python `sum(sum(a["star_usage"].values()) for a in answers) / (total*4) * 100`. -/
def meanStarPct (answers : List AnswerRecord) : ℚ :=
  ((answers.map fun a => (starCount a.star_usage : ℚ)).sum /
    ((answers.length : ℚ) * 4)) * 100

/-- The fixed 3-item next-steps checklist of lines 398-402. -/
def nextStepsFixed : List String :=
  ["Review the feedback for each question to identify patterns.",
   "Prepare 2-3 additional stories using the STAR method for common behavioral questions.",
   "Practice articulating the impact of your work with measurable outcomes."]

/-- The report built for a non-empty answer history (lines 360-403).
`average_score` / `star_coverage` hold the rounded values the source
renders with `:.2f` / `:.0f`. -/
def reportOf (s : InterviewState) : Report :=
  let answers := s.answers
  let total := answers.length
  let average_score := meanScore answers
  let average_star_coverage := meanStarPct answers
  let overall_confidence :=
    if 4 ≤ average_score then "High"
    else if 28 / 10 ≤ average_score then "Medium"
    else "Low"
  let strengths1 :=
    if 4 ≤ average_score then ["Strong overall performance and clear communication."] else []
  let areas1 :=
    if 4 ≤ average_score then []
    else if average_score < 5 / 2 then
      ["Focus on providing more detailed and structured answers."]
    else []
  let strengths2 :=
    strengths1 ++ (if 75 < average_star_coverage then ["Excellent use of the STAR method."] else [])
  let areas2 :=
    areas1 ++ (if 75 < average_star_coverage then []
      else ["Work on consistently applying the STAR method (Situation, Task, Action, Result)."])
  let low_scoring := answers.filter fun a => a.score < 3
  let areas3 :=
    areas2 ++ (if (total : ℚ) / 2 < (low_scoring.length : ℚ) then
      ["Elaborate more on the results and impact of your actions."] else [])
  { total_questions := total
    average_score := pyRound2 average_score
    overall_confidence := overall_confidence
    star_coverage := round average_star_coverage
    behavioral_questions := s.behavioral_questions
    technical_questions := s.technical_questions
    strengths := if strengths2 = [] then ["Good effort, keep practicing."] else strengths2
    areas_to_improve := if areas3 = [] then ["Continue to refine your stories."] else areas3
    next_steps := nextStepsFixed }

/-- Node `generate_final_report` (lines 345-409). -/
def generate_final_report (s : InterviewState) : InterviewState :=
  let report := if s.answers = [] then emptyReport else reportOf s
  { s with
    final_report := some report
    interview_complete := true
    messages := s.messages ++ [.ai "Interview complete. Generating final report."] }

/-- Node `start_salary_negotiation` (lines 411-413). -/
def start_salary_negotiation (s : InterviewState) : InterviewState :=
  { s with salary_negotiation_phase := true }

/-- Node `negotiate_salary` (lines 416-433): poses the first bank entry
with topic "Salary" without appending it to `asked_questions`. -/
def negotiate_salary (bank : List QuestionRecord) (now : ℚ) (s : InterviewState) :
    InterviewState :=
  if !s.salary_negotiation_phase then s
  else
    match bank.filter (fun q => q.topic == "Salary") with
    | [] => s
    | question :: _ =>
      { s with
        current_question := some question
        start_time := now
        awaiting_answer := true
        messages := s.messages ++
          [.ai ("Now, let\x27s discuss salary. " ++ question.text)] }

/-- Node `save_progress` (lines 436-458): appends the session summary to a
JSON log file and returns the empty update; on the in-memory state it is
the identity. -/
def save_progress (s : InterviewState) : InterviewState :=
  s

/-- The driver hands a candidate answer to the graph as a new
`HumanMessage`; only the most recent human message is ever read back. -/
def submit_answer (ans : String) (s : InterviewState) : InterviewState :=
  { s with messages := s.messages ++ [.human ans] }

/-- The nodes of the compiled graph (`build_interview_graph`,
lines 460-506), plus a `terminal` node for `END`. -/
inductive GNode
  | parse_job_description
  | research_company
  | analyze_role
  | generate_question
  | evaluate_answer
  | generate_follow_up_question
  | update_progress
  | generate_final_report
  | start_salary_negotiation
  | negotiate_salary
  | save_progress
  | terminal
deriving DecidableEq

/-- The node each `controller` route key maps to in `controller_edges`. -/
def routeTarget : Route → GNode
  | .generate_question => .generate_question
  | .generate_follow_up_question => .generate_follow_up_question
  | .generate_final_report => .generate_final_report
  | .save_progress => .save_progress
  | .start_salary_negotiation => .start_salary_negotiation

/-- One transition of the compiled graph: run the node at the current
position and follow its (conditional) edge (lines 474-504). -/
def graphStep (bank : List QuestionRecord) (now : ℚ) :
    GNode × InterviewState → GNode × InterviewState
  | (.parse_job_description, s) => (.research_company, parse_job_description s)
  | (.research_company, s) => (.analyze_role, research_company s)
  | (.analyze_role, s) =>
    let s' := analyze_role s
    (routeTarget (controller s'), s')
  | (.generate_question, s) => (.evaluate_answer, generate_question bank now s)
  | (.generate_follow_up_question, s) =>
    (.evaluate_answer, generate_follow_up_question now s)
  | (.negotiate_salary, s) => (.evaluate_answer, negotiate_salary bank now s)
  | (.evaluate_answer, s) => (.update_progress, evaluate_answer now s)
  | (.update_progress, s) =>
    let s' := update_progress s
    (routeTarget (controller s'), s')
  | (.generate_final_report, s) =>
    let s' := generate_final_report s
    (routeTarget (controller s'), s')
  | (.start_salary_negotiation, s) => (.negotiate_salary, start_salary_negotiation s)
  | (.save_progress, s) => (.terminal, save_progress s)
  | (.terminal, s) => (.terminal, s)

/-- Every recorded answer's `question_id` is the id of some entry of
`asked_questions` (the §3 invariant of the spec). -/
def answersLinked (s : InterviewState) : Bool :=
  s.answers.all fun a => s.asked_questions.any fun q => q.id == a.question_id

/-- While an answer is awaited, the current question has been appended to
`asked_questions`. -/
def currentLinked (s : InterviewState) : Bool :=
  if s.awaiting_answer then
    match s.current_question with
    | some q => s.asked_questions.any fun q' => q'.id == q.id
    | none => true
  else true

/-- Position of a difficulty tier on the easy/medium/hard order. -/
def difficultyRank : Difficulty → ℤ
  | .easy => 0
  | .medium => 1
  | .hard => 2

/-- The driver's initial session input (lines 636-643) with the
`state.get` defaults (difficulty medium, budget 15) filled in. -/
def initStateEx : InterviewState :=
  { job_description := "Backend Python developer experienced in REST APIs, SQL, Docker."
    user_role := "Backend Developer"
    required_skills := []
    max_questions := 5
    asked_questions := []
    answers := []
    difficulty := .medium
    question_counter := 0
    current_question := none
    start_time := 0
    awaiting_answer := false
    time_budget_min := 15
    estimated_time_used_min := 0
    final_report := none
    messages := []
    should_follow_up := false
    salary_negotiation_phase := false
    interview_complete := false
    behavioral_questions := 0
    technical_questions := 0 }

/-- The state after the three preparation nodes, at the first controller
decision. -/
def preppedState : InterviewState :=
  analyze_role (research_company (parse_job_description initStateEx))

/-- A bank question used in the concrete scenarios. -/
def q1Ex : QuestionRecord :=
  { id := "q1"
    text := "Describe a project where you used SQL."
    qtype := .technical
    difficulty := .medium
    topic := "SQL" }

/-- A salary-topic bank question used in the concrete scenarios. -/
def salaryQEx : QuestionRecord :=
  { id := "salary1"
    text := "What are your salary expectations?"
    qtype := .behavioral
    difficulty := .medium
    topic := "Salary" }

/-- A two-question bank: one ordinary question and one salary question. -/
def bankEx : List QuestionRecord :=
  [q1Ex, salaryQEx]

/-- A one-question bank that is exhausted after a single question. -/
def bank1Ex : List QuestionRecord :=
  [q1Ex]

/-- A one-question session over `bankEx`, staged through the graph: after
preparation. -/
def c3s0 : InterviewState :=
  analyze_role (research_company (parse_job_description
    { initStateEx with max_questions := 1 }))

/-- State after `generate_question` poses `q1`. -/
def c3s1 : InterviewState :=
  generate_question bankEx 0 c3s0

/-- State after the candidate answers and the answer is evaluated. -/
def c3s2 : InterviewState :=
  update_progress (evaluate_answer 0 (submit_answer "I do not know." c3s1))

/-- State after the final report (question quota 1 reached). -/
def c3s3 : InterviewState :=
  generate_final_report c3s2

/-- State after entering salary negotiation and posing the salary question. -/
def c3s4 : InterviewState :=
  negotiate_salary bankEx 0 (start_salary_negotiation c3s3)

/-- State after the salary answer goes through the same `evaluate_answer`
path. -/
def c3Final : InterviewState :=
  update_progress (evaluate_answer 0 (submit_answer "Around ninety thousand." c3s4))

/-- Session over the one-question bank right after the only question has
been answered (the answer took 60 seconds). -/
def c7Mid : InterviewState :=
  update_progress (evaluate_answer 60 (submit_answer "I do not know."
    (generate_question bank1Ex 0 preppedState)))

/-- One more controller cycle from `c7Mid`: the bank is exhausted, so
`generate_question` poses nothing and `evaluate_answer` is a no-op, yet
`update_progress` runs again. -/
def c7Next : InterviewState :=
  update_progress (evaluate_answer 60 (generate_question bank1Ex 60 c7Mid))

/-- A minimal state awaiting an answer to `q1` (used to instantiate the
hypotheses of the universally quantified theorems at a concrete input). -/
def awaitingStateEx : InterviewState :=
  { initStateEx with
    required_skills := ["Python", "REST APIs", "Microservices", "SQL", "Docker", "Unit Testing", "CI/CD"]
    asked_questions := [q1Ex]
    question_counter := 1
    current_question := some q1Ex
    awaiting_answer := true
    messages := [.ai "Question: Describe a project where you used SQL.",
      .human "In my previous company I was tasked with a goal: I used SQL and improved the outcome."] }

/-- A state with a follow-up pending on `q1` (flag set, question current). -/
def followUpStateEx : InterviewState :=
  { awaitingStateEx with awaiting_answer := false, should_follow_up := true }

/-- The composite score `evaluate_answer` assigns in state `s`: the score
of the most recent candidate message under the session's skills. -/
def scoreOfState (s : InterviewState) : ℚ :=
  compositeScore s.required_skills (lastHumanMessage s.messages)

lemma head?_filter_eq_find? {α : Type} (p : α → Bool) :
    ∀ l : List α, (l.filter p).head? = l.find? p := by
  intro l
  induction l with
  | nil => rfl
  | cons a t ih => by_cases h : p a <;> simp [List.filter_cons, List.find?_cons, h, ih]

lemma starCount_le_four (u : StarUsage) : starCount u ≤ 4 := by
  obtain ⟨a, b, c, d⟩ := u
  cases a <;> cases b <;> cases c <;> cases d <;> simp [starCount]

lemma starScoreOf_bounds (u : StarUsage) : 0 ≤ starScoreOf u ∧ starScoreOf u ≤ 1 := by
  unfold starScoreOf
  constructor
  · positivity
  · rw [div_le_one (by norm_num)]
    exact_mod_cast starCount_le_four u

lemma relevanceOf_bounds (skills : List String) (lower : String) :
    0 ≤ relevanceOf skills lower ∧ relevanceOf skills lower ≤ 1 := by
  unfold relevanceOf
  split <;> norm_num

lemma detailOf_bounds (ans : String) : 0 ≤ detailOf ans ∧ detailOf ans ≤ 1 := by
  unfold detailOf
  constructor
  · exact le_min (by positivity) (by norm_num)
  · exact min_le_right _ _

lemma rawScoreOf_bounds (skills : List String) (ans : String) :
    0 ≤ rawScoreOf skills ans ∧ rawScoreOf skills ans ≤ 5 := by
  obtain ⟨h1, h2⟩ := starScoreOf_bounds (starUsageOf ans.toLower)
  obtain ⟨h3, h4⟩ := relevanceOf_bounds skills ans.toLower
  obtain ⟨h5, h6⟩ := detailOf_bounds ans
  unfold rawScoreOf
  constructor <;> nlinarith

lemma pyRound2_bounds (x : ℚ) (h0 : 0 ≤ x) (h5 : x ≤ 5) :
    0 ≤ pyRound2 x ∧ pyRound2 x ≤ 5 := by
  unfold pyRound2
  have hlo : (0 : ℤ) ≤ round (x * 100) := by
    rw [round_eq, Int.le_floor]
    push_cast
    linarith
  have hhi : round (x * 100) ≤ 500 := by
    rw [round_eq]
    have : (⌊x * 100 + 1 / 2⌋ : ℤ) < 501 := by
      rw [Int.floor_lt]
      push_cast
      linarith
    omega
  constructor
  · positivity
  · rw [div_le_iff₀ (by norm_num)]
    have : ((round (x * 100) : ℤ) : ℚ) ≤ (500 : ℚ) := by exact_mod_cast hhi
    linarith

lemma compositeScore_bounds (skills : List String) (ans : String) :
    0 ≤ compositeScore skills ans ∧ compositeScore skills ans ≤ 5 := by
  obtain ⟨h0, h5⟩ := rawScoreOf_bounds skills ans
  exact pyRound2_bounds _ h0 h5

lemma confidenceOf_high_iff (x : ℚ) : confidenceOf x = .high ↔ 4 ≤ x := by
  by_cases h1 : (4 : ℚ) ≤ x
  · simp [confidenceOf, h1]
  · by_cases h2 : (28 : ℚ) / 10 ≤ x <;> simp [confidenceOf, h1, h2]

lemma confidenceOf_medium_iff (x : ℚ) :
    confidenceOf x = .medium ↔ 28 / 10 ≤ x ∧ x < 4 := by
  by_cases h1 : (4 : ℚ) ≤ x
  · simp only [confidenceOf, if_pos h1]
    constructor
    · intro h
      exact absurd h (by simp)
    · rintro ⟨-, h⟩
      linarith
  · by_cases h2 : (28 : ℚ) / 10 ≤ x
    · simp only [confidenceOf, if_neg h1, if_pos h2]
      simp [h2, not_le.mp h1]
    · simp only [confidenceOf, if_neg h1, if_neg h2]
      constructor
      · intro h
        exact absurd h (by simp)
      · rintro ⟨h, -⟩
        exact absurd h h2

lemma confidenceOf_low_iff (x : ℚ) : confidenceOf x = .low ↔ x < 28 / 10 := by
  by_cases h1 : (4 : ℚ) ≤ x
  · simp only [confidenceOf, if_pos h1]
    constructor
    · intro h
      exact absurd h (by simp)
    · intro h
      exact absurd (by linarith : (28 : ℚ) / 10 ≤ x) (not_le.mpr h)
  · by_cases h2 : (28 : ℚ) / 10 ≤ x
    · simp only [confidenceOf, if_neg h1, if_pos h2]
      constructor
      · intro h
        exact absurd h (by simp)
      · intro h
        exact absurd h2 (not_le.mpr h)
    · simp only [confidenceOf, if_neg h1, if_neg h2]
      simp [not_le.mp h2]

/-- C9: invoking `evaluate_answer` when `awaiting_answer` is false, or when
there is no current question, is a no-op returning an empty update: the
state is entirely unchanged and no error is raised and no answer recorded. -/
theorem C9_guarded_evaluate_noop (now : ℚ) (s : InterviewState)
    (h : s.awaiting_answer = false ∨ s.current_question = none) :
    evaluate_answer now s = s := by
  unfold evaluate_answer
  rcases h with h | h
  · simp [h]
  · cases hA : s.awaiting_answer <;> simp [h, hA]

/-- Witness for C9 at the driver's initial state. -/
theorem C9_witness : evaluate_answer 0 initStateEx = initStateEx :=
  C9_guarded_evaluate_noop 0 initStateEx (Or.inl rfl)

/-- C4: for every current difficulty and evaluated score the adjustment
moves at most one step along easy/medium/hard, with exactly the claimed
table (score ≥ 4.2 promotes below hard, score < 3.0 demotes above easy,
anything else is unchanged), and `evaluate_answer` applies exactly this
adjustment to the state's difficulty. -/
theorem C4_difficulty_one_step (score : ℚ) :
    (42 / 10 ≤ score →
      adjust_difficulty .easy score = .medium ∧
      adjust_difficulty .medium score = .hard ∧
      adjust_difficulty .hard score = .hard) ∧
    (score < 3 →
      adjust_difficulty .hard score = .medium ∧
      adjust_difficulty .medium score = .easy ∧
      adjust_difficulty .easy score = .easy) ∧
    (3 ≤ score → score < 42 / 10 →
      ∀ current, adjust_difficulty current score = current) ∧
    (∀ current,
      (difficultyRank (adjust_difficulty current score) - difficultyRank current).natAbs ≤ 1) ∧
    (∀ (now : ℚ) (s : InterviewState) (q : QuestionRecord),
      s.awaiting_answer = true → s.current_question = some q →
      (evaluate_answer now s).difficulty = adjust_difficulty s.difficulty (scoreOfState s)) := by
  refine ⟨?_, ?_, ?_, ?_, ?_⟩
  · intro h
    simp [adjust_difficulty, h]
  · intro h
    have h' : ¬(42 / 10 ≤ score) := by linarith
    simp [adjust_difficulty, h', h]
  · intro h1 h2 current
    have h3 : ¬(42 / 10 ≤ score) := by linarith
    have h4 : ¬(score < 3) := by linarith
    simp [adjust_difficulty, h3, h4]
  · intro current
    unfold adjust_difficulty
    split_ifs <;> cases current <;> simp [difficultyRank]
  · intro now s q hA hQ
    simp [evaluate_answer, hA, hQ, scoreOfState, compositeScore, pyRound2]

/-- C6: question selection is deterministic: it returns the first bank
entry (in the bank's fixed order) that is unused and at the current
difficulty or medium, else the first unused entry of any difficulty, else
none; and a returned question's id is never already in `asked_questions`. -/
theorem C6_selector_first_match_and_fresh (bank : List QuestionRecord) (s : InterviewState) :
    (select_question bank s =
      match bank.find? (fun q =>
          (q.difficulty == s.difficulty || q.difficulty == Difficulty.medium) &&
            !((s.asked_questions.map fun q' => q'.id).contains q.id)) with
      | some q => some q
      | none =>
        bank.find? fun q => !((s.asked_questions.map fun q' => q'.id).contains q.id)) ∧
    (∀ q, select_question bank s = some q → ∀ q' ∈ s.asked_questions, q'.id ≠ q.id) := by
  have e1 := head?_filter_eq_find?
    (fun q : QuestionRecord =>
      (q.difficulty == s.difficulty || q.difficulty == Difficulty.medium) &&
        !((s.asked_questions.map fun q' => q'.id).contains q.id)) bank
  have e2 := head?_filter_eq_find?
    (fun q : QuestionRecord => !((s.asked_questions.map fun q' => q'.id).contains q.id)) bank
  constructor
  · cases h1 : bank.filter (fun q : QuestionRecord =>
        (q.difficulty == s.difficulty || q.difficulty == Difficulty.medium) &&
          !((s.asked_questions.map fun q' => q'.id).contains q.id)) with
    | cons a t =>
      rw [h1] at e1
      simp only [List.head?] at e1
      simp only [select_question]
      rw [h1, ← e1]
    | nil =>
      rw [h1] at e1
      simp only [List.head?] at e1
      cases h2 : bank.filter (fun q : QuestionRecord =>
          !((s.asked_questions.map fun q' => q'.id).contains q.id)) with
      | cons a t =>
        rw [h2] at e2
        simp only [List.head?] at e2
        simp only [select_question]
        rw [h1, h2, ← e1, ← e2]
      | nil =>
        rw [h2] at e2
        simp only [List.head?] at e2
        simp only [select_question]
        rw [h1, h2, ← e1, ← e2]
  · intro q hq q' hq' hid
    simp only [select_question] at hq
    have hfresh : ((s.asked_questions.map fun q' => q'.id).contains q.id) = false := by
      cases h1 : bank.filter (fun q : QuestionRecord =>
          (q.difficulty == s.difficulty || q.difficulty == Difficulty.medium) &&
            !((s.asked_questions.map fun q' => q'.id).contains q.id)) with
      | cons a t =>
        rw [h1] at hq
        simp only [Option.some.injEq] at hq
        have ha : a ∈ bank.filter (fun q : QuestionRecord =>
            (q.difficulty == s.difficulty || q.difficulty == Difficulty.medium) &&
              !((s.asked_questions.map fun q' => q'.id).contains q.id)) := by
          rw [h1]
          exact List.mem_cons_self a t
        have hp := List.of_mem_filter ha
        rw [hq] at hp
        simp only [Bool.and_eq_true, Bool.not_eq_true'] at hp
        exact hp.2
      | nil =>
        rw [h1] at hq
        cases h2 : bank.filter (fun q : QuestionRecord =>
            !((s.asked_questions.map fun q' => q'.id).contains q.id)) with
        | nil =>
          rw [h2] at hq
          cases hq
        | cons a t =>
          rw [h2] at hq
          simp only [Option.some.injEq] at hq
          have ha : a ∈ bank.filter (fun q : QuestionRecord =>
              !((s.asked_questions.map fun q' => q'.id).contains q.id)) := by
            rw [h2]
            exact List.mem_cons_self a t
          have hp := List.of_mem_filter ha
          rw [hq] at hp
          simp only [Bool.not_eq_true'] at hp
          exact hp
    have hmem : q.id ∈ s.asked_questions.map fun q' => q'.id := by
      rw [← hid]
      exact List.mem_map_of_mem (fun q' => q'.id) hq'
    have : ((s.asked_questions.map fun q' => q'.id).contains q.id) = true :=
      List.elem_eq_true_of_mem hmem
    rw [hfresh] at this
    cases this

/-- C1: for every answer text and state, `evaluate_answer` records the
composite score `round((star*0.5 + rel*0.3 + detail*0.2) * 5, 2)` with the
stated sub-scores, the score lies in [0,5], and the confidence band is
exactly high iff score ≥ 4.0, medium iff 2.8 ≤ score < 4.0, low iff
score < 2.8. -/
theorem C1_score_formula_range_and_bands (now : ℚ) (s : InterviewState) (q : QuestionRecord)
    (hA : s.awaiting_answer = true) (hQ : s.current_question = some q) :
    ((evaluate_answer now s).answers.getLast?.map fun r =>
        (r.question_id, r.score, r.confidence)) =
      some (q.id, scoreOfState s, confidenceOf (scoreOfState s)) ∧
    scoreOfState s =
      pyRound2 ((starScoreOf (starUsageOf (lastHumanMessage s.messages).toLower) * (1 / 2) +
        relevanceOf s.required_skills (lastHumanMessage s.messages).toLower * (3 / 10) +
        detailOf (lastHumanMessage s.messages) * (1 / 5)) * 5) ∧
    0 ≤ scoreOfState s ∧ scoreOfState s ≤ 5 ∧
    (confidenceOf (scoreOfState s) = .high ↔ 4 ≤ scoreOfState s) ∧
    (confidenceOf (scoreOfState s) = .medium ↔
      28 / 10 ≤ scoreOfState s ∧ scoreOfState s < 4) ∧
    (confidenceOf (scoreOfState s) = .low ↔ scoreOfState s < 28 / 10) := by
  refine ⟨?_, ?_, (compositeScore_bounds _ _).1, (compositeScore_bounds _ _).2,
    confidenceOf_high_iff _, confidenceOf_medium_iff _, confidenceOf_low_iff _⟩
  · simp only [evaluate_answer, hA, hQ, Bool.not_true, Bool.false_eq_true, if_false]
    rw [List.getLast?_concat]
    simp [scoreOfState, compositeScore, pyRound2]
  · simp [scoreOfState, compositeScore, rawScoreOf]

/-- Witness for C1 at a concrete awaiting state. -/
theorem C1_witness :
    ((evaluate_answer 30 awaitingStateEx).answers.getLast?.map fun r =>
        (r.question_id, r.score, r.confidence)) =
      some (q1Ex.id, scoreOfState awaitingStateEx,
        confidenceOf (scoreOfState awaitingStateEx)) ∧
    scoreOfState awaitingStateEx =
      pyRound2 ((starScoreOf (starUsageOf
          (lastHumanMessage awaitingStateEx.messages).toLower) * (1 / 2) +
        relevanceOf awaitingStateEx.required_skills
          (lastHumanMessage awaitingStateEx.messages).toLower * (3 / 10) +
        detailOf (lastHumanMessage awaitingStateEx.messages) * (1 / 5)) * 5) ∧
    0 ≤ scoreOfState awaitingStateEx ∧ scoreOfState awaitingStateEx ≤ 5 ∧
    (confidenceOf (scoreOfState awaitingStateEx) = .high ↔
      4 ≤ scoreOfState awaitingStateEx) ∧
    (confidenceOf (scoreOfState awaitingStateEx) = .medium ↔
      28 / 10 ≤ scoreOfState awaitingStateEx ∧ scoreOfState awaitingStateEx < 4) ∧
    (confidenceOf (scoreOfState awaitingStateEx) = .low ↔
      scoreOfState awaitingStateEx < 28 / 10) :=
  C1_score_formula_range_and_bands 30 awaitingStateEx q1Ex rfl rfl

/-- C5: the follow-up flag is set iff the evaluated score lies in
[2.8, 4.2); when a follow-up is generated it is a synthesized question
with id `followup_<parentId>`, the parent's type, difficulty and topic,
text built from the first 20 characters of the prior answer plus the fixed
elaboration prompt, and the flag is reset to false in that step. -/
theorem C5_follow_up_policy (now : ℚ) (s : InterviewState) (q : QuestionRecord)
    (hF : s.should_follow_up = true) (hQ : s.current_question = some q) :
    generate_follow_up_question now s =
      { s with
        current_question := some (followUpQuestionOf q (lastHumanMessage s.messages))
        start_time := now
        question_counter := s.question_counter + 1
        asked_questions :=
          s.asked_questions ++ [followUpQuestionOf q (lastHumanMessage s.messages)]
        awaiting_answer := true
        messages := s.messages ++
          [.ai ("Follow-up: " ++ (followUpQuestionOf q (lastHumanMessage s.messages)).text)]
        should_follow_up := false } ∧
    (followUpQuestionOf q (lastHumanMessage s.messages)).id = "followup_" ++ q.id ∧
    (followUpQuestionOf q (lastHumanMessage s.messages)).qtype = q.qtype ∧
    (followUpQuestionOf q (lastHumanMessage s.messages)).difficulty = q.difficulty ∧
    (followUpQuestionOf q (lastHumanMessage s.messages)).topic = q.topic ∧
    (followUpQuestionOf q (lastHumanMessage s.messages)).text =
      "That\x27s an interesting point about \x27" ++ (lastHumanMessage s.messages).take 20 ++
        "...\x27. Can you elaborate on the challenges you faced?" ∧
    (generate_follow_up_question now s).should_follow_up = false ∧
    (∀ (now' : ℚ) (s' : InterviewState) (q' : QuestionRecord),
      s'.awaiting_answer = true → s'.current_question = some q' →
      ((evaluate_answer now' s').should_follow_up = true ↔
        28 / 10 ≤ scoreOfState s' ∧ scoreOfState s' < 42 / 10)) := by
  refine ⟨?_, rfl, rfl, rfl, rfl, rfl, ?_, ?_⟩
  · simp [generate_follow_up_question, hF, hQ]
  · simp [generate_follow_up_question, hF, hQ]
  · intro now' s' q' hA' hQ'
    simp only [evaluate_answer, hA', hQ', Bool.not_true, Bool.false_eq_true, if_false]
    simp [followUpFlag, scoreOfState, compositeScore, pyRound2]

/-- Witness for C5 at a concrete pending-follow-up state. -/
theorem C5_witness :
    (generate_follow_up_question 5 followUpStateEx).should_follow_up = false ∧
    (followUpQuestionOf q1Ex (lastHumanMessage followUpStateEx.messages)).id =
      "followup_" ++ q1Ex.id :=
  ⟨(C5_follow_up_policy 5 followUpStateEx q1Ex rfl rfl).2.2.2.2.2.2.1,
    (C5_follow_up_policy 5 followUpStateEx q1Ex rfl rfl).2.1⟩

/-- C10: a synthesized follow-up is appended to `asked_questions` and
increments `question_counter` by one, exactly like a bank question, and
the controller routes to the final report once
`question_counter ≥ max_questions` (so each follow-up consumes one unit of
the quota). -/
theorem C10_follow_up_consumes_quota (now : ℚ) (s : InterviewState) (q : QuestionRecord)
    (hF : s.should_follow_up = true) (hQ : s.current_question = some q) :
    (generate_follow_up_question now s).question_counter = s.question_counter + 1 ∧
    (generate_follow_up_question now s).asked_questions =
      s.asked_questions ++ [followUpQuestionOf q (lastHumanMessage s.messages)] ∧
    (∀ s' : InterviewState, s'.interview_complete = false → s'.should_follow_up = false →
      s'.estimated_time_used_min < s'.time_budget_min →
      s'.max_questions ≤ s'.question_counter →
      controller s' = .generate_final_report) := by
  refine ⟨?_, ?_, ?_⟩
  · simp [generate_follow_up_question, hF, hQ]
  · simp [generate_follow_up_question, hF, hQ]
  · intro s' h1 h2 h3 h4
    simp [controller, h1, h2, h4, not_le.mpr h3]

/-- Witness for C10 at a concrete pending-follow-up state. -/
theorem C10_witness :
    (generate_follow_up_question 5 followUpStateEx).question_counter =
      followUpStateEx.question_counter + 1 ∧
    (generate_follow_up_question 5 followUpStateEx).asked_questions =
      followUpStateEx.asked_questions ++
        [followUpQuestionOf q1Ex (lastHumanMessage followUpStateEx.messages)] :=
  ⟨(C10_follow_up_consumes_quota 5 followUpStateEx q1Ex rfl rfl).1,
    (C10_follow_up_consumes_quota 5 followUpStateEx q1Ex rfl rfl).2.1⟩

lemma answersLinked_asked_append (s : InterviewState) (l : List QuestionRecord)
    (h : answersLinked s = true) :
    (s.answers.all fun a => (s.asked_questions ++ l).any fun q => q.id == a.question_id) =
      true := by
  unfold answersLinked at h
  rw [List.all_eq_true] at h ⊢
  intro a ha
  have hx := h a ha
  rw [List.any_eq_true] at hx ⊢
  obtain ⟨q, hq, hqa⟩ := hx
  exact ⟨q, List.mem_append_left _ hq, hqa⟩

/-- C7 (amended): `update_progress` adds the last answer's
`time_taken_sec/60` to the time budget whenever the answers list is
nonempty (and is the identity when it is empty), it never removes or adds
answers, it is monotone when all recorded times are nonnegative, and no
other node of the loop changes `estimated_time_used_min`. -/
theorem C7_time_accumulation (bank : List QuestionRecord) (now : ℚ) (s : InterviewState) :
    (s.answers = [] → update_progress s = s) ∧
    (∀ a, s.answers.getLast? = some a →
      (update_progress s).estimated_time_used_min =
        s.estimated_time_used_min + a.time_taken_sec / 60 ∧
      (update_progress s).answers = s.answers) ∧
    ((∀ a ∈ s.answers, 0 ≤ a.time_taken_sec) →
      s.estimated_time_used_min ≤ (update_progress s).estimated_time_used_min) ∧
    (generate_question bank now s).estimated_time_used_min = s.estimated_time_used_min ∧
    (generate_follow_up_question now s).estimated_time_used_min =
      s.estimated_time_used_min ∧
    (evaluate_answer now s).estimated_time_used_min = s.estimated_time_used_min ∧
    (negotiate_salary bank now s).estimated_time_used_min = s.estimated_time_used_min ∧
    (generate_final_report s).estimated_time_used_min = s.estimated_time_used_min := by
  refine ⟨?_, ?_, ?_, ?_, ?_, ?_, ?_, rfl⟩
  · intro h
    simp [update_progress, h]
  · intro a ha
    simp [update_progress, ha]
  · intro h
    cases ha : s.answers.getLast? with
    | none => simp [update_progress, ha]
    | some a =>
      have hmem : a ∈ s.answers := List.mem_of_mem_getLast? ha
      have ht := h a hmem
      simp only [update_progress, ha]
      have hnn : (0 : ℚ) ≤ a.time_taken_sec / 60 := by positivity
      show s.estimated_time_used_min ≤ s.estimated_time_used_min + a.time_taken_sec / 60
      linarith
  · simp only [generate_question]
    by_cases hMax : s.max_questions ≤ s.question_counter
    · simp [hMax]
    · simp only [if_neg hMax]
      cases hSel : select_question bank s with
      | none => simp
      | some q => cases hT : q.qtype <;> simp [hT]
  · simp only [generate_follow_up_question]
    by_cases hF : s.should_follow_up
    · simp only [hF, Bool.not_true, Bool.false_eq_true, if_false]
      cases hQ : s.current_question with
      | none => simp
      | some q => simp
    · simp [hF]
  · simp only [evaluate_answer]
    by_cases hA : s.awaiting_answer
    · simp only [hA, Bool.not_true, Bool.false_eq_true, if_false]
      cases hQ : s.current_question with
      | none => simp
      | some q => simp
    · simp [hA]
  · simp only [negotiate_salary]
    by_cases hP : s.salary_negotiation_phase
    · simp only [hP, Bool.not_true, Bool.false_eq_true, if_false]
      cases hF : bank.filter (fun q => q.topic == "Salary") with
      | nil => simp
      | cons q t => simp
    · simp [hP]

/-- Counterexample to C7 as stated: after the one-question bank is
exhausted, the controller cycles through `generate_question` (which poses
nothing), a no-op `evaluate_answer`, and `update_progress`, which re-adds
the last answer's time — the budget increases from 1 to 2 minutes with no
newly completed AnswerRecord. -/
theorem C7_counterexample :
    controller c7Mid = Route.generate_question ∧
    c7Next.answers.length = c7Mid.answers.length ∧
    c7Mid.answers.length = 1 ∧
    c7Mid.estimated_time_used_min = 1 ∧
    c7Next.estimated_time_used_min = 2 := by
  with_unfolding_all decide

/-- C3 (amended): the answers/asked-questions link is an invariant of the
main question/follow-up/evaluate path: `generate_question` and
`generate_follow_up_question` append the posed question to
`asked_questions` before awaiting the answer, and `evaluate_answer`
records an answer whose `question_id` is the current question's id.  (The
salary-negotiation path breaks it: `negotiate_salary` poses its question
without appending it.) -/
theorem C3_answers_linked_main_path (bank : List QuestionRecord) (now : ℚ)
    (s : InterviewState) :
    (answersLinked s = true → currentLinked s = true →
      answersLinked (evaluate_answer now s) = true ∧
      (evaluate_answer now s).asked_questions = s.asked_questions) ∧
    (answersLinked s = true →
      answersLinked (generate_question bank now s) = true ∧
      currentLinked (generate_question bank now s) = true) ∧
    (∀ q, s.current_question = some q → s.should_follow_up = true →
      answersLinked s = true →
      answersLinked (generate_follow_up_question now s) = true ∧
      currentLinked (generate_follow_up_question now s) = true) := by
  refine ⟨?_, ?_, ?_⟩
  · intro hAns hCur
    cases hA : s.awaiting_answer with
    | false => simp [evaluate_answer, hA, hAns]
    | true =>
      cases hQ : s.current_question with
      | none => simp [evaluate_answer, hA, hQ, hAns]
      | some q =>
        have hcur : (s.asked_questions.any fun q' => q'.id == q.id) = true := by
          unfold currentLinked at hCur
          rw [hA, hQ] at hCur
          simpa using hCur
        constructor
        · simp only [evaluate_answer, hA, hQ, Bool.not_true, Bool.false_eq_true, if_false]
          unfold answersLinked at hAns ⊢
          simp only [List.all_append, List.all_cons, List.all_nil, Bool.and_true,
            Bool.and_eq_true]
          exact ⟨hAns, hcur⟩
        · simp only [evaluate_answer, hA, hQ, Bool.not_true, Bool.false_eq_true, if_false]
  · intro hAns
    simp only [generate_question]
    by_cases hMax : s.max_questions ≤ s.question_counter
    · rw [if_pos hMax]
      exact ⟨hAns, by simp [currentLinked]⟩
    · rw [if_neg hMax]
      cases hSel : select_question bank s with
      | none => exact ⟨hAns, by simp [currentLinked]⟩
      | some q =>
        have hlink : (s.answers.all fun a =>
            (s.asked_questions ++ [q]).any fun q' => q'.id == a.question_id) = true :=
          answersLinked_asked_append s [q] hAns
        have hcur : ((s.asked_questions ++ [q]).any fun q' => q'.id == q.id) = true := by
          rw [List.any_append]
          simp
        cases hT : q.qtype <;>
          exact ⟨by simp only [hT]; exact hlink, by simp only [hT]; exact hcur⟩
  · intro q hQ hF hAns
    simp only [generate_follow_up_question, hF, hQ, Bool.not_true, Bool.false_eq_true,
      if_false]
    have hlink : (s.answers.all fun a =>
        (s.asked_questions ++ [followUpQuestionOf q (lastHumanMessage s.messages)]).any
          fun q' => q'.id == a.question_id) = true :=
      answersLinked_asked_append s [followUpQuestionOf q (lastHumanMessage s.messages)] hAns
    have hcur : ((s.asked_questions ++
        [followUpQuestionOf q (lastHumanMessage s.messages)]).any
          fun q' => q'.id == (followUpQuestionOf q (lastHumanMessage s.messages)).id) =
        true := by
      rw [List.any_append]
      simp
    exact ⟨hlink, hcur⟩

/-- Counterexample to C3 as stated: in the reachable state reached by
answering the single main question of `bankEx`, generating the final
report, entering salary negotiation and answering the salary question
(routed through the same `evaluate_answer` path), the salary answer's
`question_id` ("salary1") matches no entry of `asked_questions` (which
holds only "q1"), because `negotiate_salary` never appends its question. -/
theorem C3_counterexample :
    (c3Final.answers.map fun a => a.question_id) = ["q1", "salary1"] ∧
    (c3Final.asked_questions.map fun q => q.id) = ["q1"] ∧
    answersLinked c3Final = false ∧
    controller c3s0 = Route.generate_question ∧
    controller c3s2 = Route.generate_final_report ∧
    controller c3s3 = Route.start_salary_negotiation ∧
    c3s4.awaiting_answer = true ∧
    c3s4.current_question = some salaryQEx ∧
    controller c3Final = Route.save_progress := by
  with_unfolding_all decide

lemma c2_prep_steps :
    (graphStep [] 0)^[3] (GNode.parse_job_description, initStateEx) =
      (GNode.generate_question, preppedState) := by
  with_unfolding_all decide

lemma c2_step_gq :
    graphStep [] 0 (GNode.generate_question, preppedState) =
      (GNode.evaluate_answer, preppedState) := by
  with_unfolding_all decide

lemma c2_step_ev :
    graphStep [] 0 (GNode.evaluate_answer, preppedState) =
      (GNode.update_progress, preppedState) := by
  with_unfolding_all decide

lemma c2_step_up :
    graphStep [] 0 (GNode.update_progress, preppedState) =
      (GNode.generate_question, preppedState) := by
  with_unfolding_all decide

lemma c2_loop (n : ℕ) :
    (graphStep [] 0)^[n] (GNode.generate_question, preppedState) =
      (GNode.generate_question, preppedState) ∨
    (graphStep [] 0)^[n] (GNode.generate_question, preppedState) =
      (GNode.evaluate_answer, preppedState) ∨
    (graphStep [] 0)^[n] (GNode.generate_question, preppedState) =
      (GNode.update_progress, preppedState) := by
  induction n with
  | zero => exact Or.inl rfl
  | succ n ih =>
    rw [Function.iterate_succ_apply']
    rcases ih with h | h | h <;> rw [h]
    · exact Or.inr (Or.inl c2_step_gq)
    · exact Or.inr (Or.inr c2_step_ev)
    · exact Or.inl c2_step_up

/-- C2 (the code violates the claim): with an empty (exhausted) question
bank, from the reachable first controller decision — interview not
complete, no follow-up pending, time budget not exhausted, quota not
reached, selector returning no question — the compiled graph cycles
`generate_question → evaluate_answer → update_progress → controller`
forever without ever reaching `generate_final_report`. -/
theorem C2_exhausted_bank_never_reaches_report :
    (graphStep [] 0)^[3] (GNode.parse_job_description, initStateEx) =
      (GNode.generate_question, preppedState) ∧
    controller preppedState = Route.generate_question ∧
    select_question [] preppedState = none ∧
    preppedState.interview_complete = false ∧
    preppedState.should_follow_up = false ∧
    preppedState.estimated_time_used_min < preppedState.time_budget_min ∧
    preppedState.question_counter < preppedState.max_questions ∧
    (∀ n : ℕ, ((graphStep [] 0)^[n] (GNode.generate_question, preppedState)).1 ≠
      GNode.generate_final_report) := by
  refine ⟨c2_prep_steps, by with_unfolding_all decide, by with_unfolding_all decide,
    rfl, rfl, by with_unfolding_all decide, by with_unfolding_all decide, ?_⟩
  intro n
  rcases c2_loop n with h | h | h <;> rw [h] <;> simp

/-- C8: on an empty answer history the final report is the fixed
empty-state report; on N ≥ 1 answers it carries the mean score rounded to
2 decimals, the mean STAR coverage percentage rounded to the nearest
integer, the overall confidence banded at the 4.0/2.8 thresholds, a
non-empty strengths list, a non-empty areas-to-improve list (generic
fallback text when no rule fired), and the fixed 3-item next-steps
checklist. -/
theorem C8_report_aggregates (s : InterviewState) :
    (s.answers = [] →
      generate_final_report s =
        { s with
          final_report := some emptyReport
          interview_complete := true
          messages := s.messages ++ [.ai "Interview complete. Generating final report."] }) ∧
    (s.answers ≠ [] →
      generate_final_report s =
        { s with
          final_report := some (reportOf s)
          interview_complete := true
          messages := s.messages ++ [.ai "Interview complete. Generating final report."] } ∧
      (reportOf s).total_questions = s.answers.length ∧
      (reportOf s).average_score = pyRound2 (meanScore s.answers) ∧
      (reportOf s).star_coverage = round (meanStarPct s.answers) ∧
      (reportOf s).overall_confidence =
        (if 4 ≤ meanScore s.answers then "High"
         else if 28 / 10 ≤ meanScore s.answers then "Medium"
         else "Low") ∧
      (reportOf s).strengths ≠ [] ∧
      (reportOf s).areas_to_improve ≠ [] ∧
      (reportOf s).next_steps = nextStepsFixed ∧
      (reportOf s).next_steps.length = 3) := by
  constructor
  · intro h
    simp [generate_final_report, h]
  · intro h
    refine ⟨by simp [generate_final_report, h], rfl, rfl, rfl, rfl, ?_, ?_, rfl, rfl⟩
    · simp only [reportOf]
      split_ifs <;> simp_all
    · simp only [reportOf]
      split_ifs <;> simp_all
